import Mathlib

/-!
Verification development for the TypingIndicatorPlus SillyTavern extension
(src/index.js).  The module-level mutable state, the DOM nodes the extension
owns, and the browser timer/observer registrations are embedded as an explicit
state record; each event handler of the source becomes a pure state
transformer.  Randomness (Math.random) is injected as explicit rational
arguments in [0,1).  Display-only configuration (text templates, colors, glow,
avatars, mobile mode) is not modelled: no claim depends on it, and the spec
treats the renderer and avatar resolver as external collaborators.
-/

namespace TypingIndicator

/-- Kinds of asynchronous callback registrations the extension creates:
the repeating sound interval (setInterval in showTypingIndicator), the pause
rescheduling timeout (schedulePause), the one-shot timeout removing the
transient paused class, the 250ms node-removal timeout of hideTypingIndicator,
the user-indicator idle timeout, and the thinking MutationObserver connection. -/
inductive TimerKind where
  | soundLoop
  | pauseLoop
  | pauseEnd
  | hideRemove
  | userIdle
  | thinkObs
  deriving DecidableEq, Repr

/-- A live asynchronous callback registration: its id (browser timer ids and
observer registrations share one fresh-id namespace here), its kind, and the
delay it was scheduled with (0 for the observer, which has no delay). -/
structure Pending where
  id : Nat
  kind : TimerKind
  delay : ℚ
  deriving DecidableEq, Repr

/-- Abstraction of generateIndicatorHTML's output: which side the markup is
for, whether the thinking variant of text and icon was chosen
(isThinking && settings.showThinking in the source), and the display name. -/
structure RenderOut where
  isUser : Bool
  thinkingVariant : Bool
  displayName : String
  deriving DecidableEq, Repr

/-- The indicator DOM node (id typing_indicator_plus): its rendered inner
content and the class names the core logic reads or writes.  The position,
style and theme classes come from settings; visibleCls, hidingCls and
pausedCls are the visible, hiding and paused classes toggled at runtime. -/
structure CharNode where
  content : RenderOut
  posClass : String
  styleClass : String
  themeClass : String
  visibleCls : Bool
  hidingCls : Bool
  pausedCls : Bool
  deriving DecidableEq, Repr

/-- The settings fields the core logic branches on (defaultSettings in the
source; purely visual fields such as text templates, colors, glow and avatar
options are omitted, as are the settings-UI concerns). -/
structure Settings where
  enabled : Bool
  style : String
  position : String
  animationTheme : String
  userTypingEnabled : Bool
  soundEnabled : Bool
  soundVolume : ℚ
  simulatePauses : Bool
  pauseChance : ℚ
  userTypingTimeoutMs : ℚ
  soundTheme : String
  showThinking : Bool
  groupChatSupport : Bool
  deriving DecidableEq, Repr

/-- The non-visual defaults of defaultSettings in src/index.js. -/
def defaultSettings : Settings :=
  { enabled := true
    style := "discord"
    position := "inline"
    animationTheme := "smooth"
    userTypingEnabled := false
    soundEnabled := false
    soundVolume := 3/10
    simulatePauses := false
    pauseChance := 1/2
    userTypingTimeoutMs := 600
    soundTheme := "ios"
    showThinking := true
    groupChatSupport := false }

/-- The module-level mutable state of src/index.js (pauseTimeout,
soundInterval, isIndicatorVisible, isCharThinking, typingCharacters,
thinkingObserver, userTypingTimeout) together with the parts of the document
the extension touches and a registry of live timers/observers.  fresh is the
next unused timer id; pending lists the currently live registrations, so a
callback can only run while its entry is in pending (clearTimeout /
clearInterval / observer disconnect remove the entry). -/
structure TIState where
  pauseTimeout : Option Nat
  soundInterval : Option Nat
  isIndicatorVisible : Bool
  isCharThinking : Bool
  typingCharacters : List String
  thinkingObserver : Option Nat
  userTypingTimeout : Option Nat
  fresh : Nat
  pending : List Pending
  charNodes : List CharNode
  chatExists : Bool
  userNodeExists : Bool
  sendFormExists : Bool
  deriving DecidableEq, Repr

/-- The state at module load: all handles null, no nodes, no live timers. -/
def initState : TIState :=
  { pauseTimeout := none
    soundInterval := none
    isIndicatorVisible := false
    isCharThinking := false
    typingCharacters := []
    thinkingObserver := none
    userTypingTimeout := none
    fresh := 0
    pending := []
    charNodes := []
    chatExists := true
    userNodeExists := false
    sendFormExists := true }

/-- clearTimeout / clearInterval / disconnect on an optional handle: removes
the registration with that id (a safe no-op when the handle is null or the
id is no longer registered). -/
def clearById (i : Option Nat) (l : List Pending) : List Pending :=
  match i with
  | none => l
  | some idv => l.filter (fun p => decide (p.id ≠ idv))

/-- setTimeout / setInterval / observe: registers a fresh callback id of the
given kind and delay.  The new id is the old value of fresh. -/
def addTimer (k : TimerKind) (d : ℚ) (st : TIState) : TIState :=
  { st with pending := ⟨st.fresh, k, d⟩ :: st.pending, fresh := st.fresh + 1 }

/-- clearTimers from src/index.js lines 637-652: cancels the pause timeout,
the sound interval and the thinking observer (each only if its handle is
non-null), nulls the three handles, and always resets isCharThinking. -/
def clearTimers (st : TIState) : TIState :=
  { st with
    pending := clearById st.thinkingObserver
      (clearById st.soundInterval (clearById st.pauseTimeout st.pending))
    pauseTimeout := none
    soundInterval := none
    thinkingObserver := none
    isCharThinking := false }

/-- The generation types excluded from showing the indicator
(noIndicatorTypes in showTypingIndicator). -/
def noIndicatorTypes : List String := ["quiet", "impersonate"]

/-- typingCharacters.add(name): JS Set insertion keeps first-insertion order
and ignores duplicates. -/
def addTypingCharacter (n : String) (tc : List String) : List String :=
  if tc.contains n then tc else tc ++ [n]

/-- generateIndicatorHTML from src/index.js lines 402-528, abstracted to the
observable choices the core makes: the display name (including the group-chat
aggregation over typingCharacters) and whether the thinking text/icon variant
is used (isThinking && settings.showThinking).  The concrete markup strings
are display-only and not modelled. -/
def generateIndicatorHTML (s : Settings) (n1 n2 : String)
    (chars : List String) (isUser isThinking : Bool) : RenderOut :=
  let baseName :=
    if isUser then (if n1 = "" then "You" else n1)
    else (if n2 = "" then "Character" else n2)
  let name :=
    if !isUser && s.groupChatSupport && decide (1 < chars.length) then
      match chars with
      | [a, b] => a ++ " and " ++ b
      | a :: _ => a ++ " and " ++ toString (chars.length - 1) ++ " others"
      | [] => baseName
    else baseName
  { isUser := isUser
    thinkingVariant := isThinking && s.showThinking
    displayName := name }

/-- The early-return guard of showTypingIndicator:
noIndicatorTypes.includes(type) || dryRun. -/
def showGuard (ty : String) (dryRun : Bool) : Bool :=
  noIndicatorTypes.contains ty || dryRun

/-- The second early return of showTypingIndicator:
!settings.enabled || !name2 (an empty name2 is falsy). -/
def showPre (s : Settings) (n2 : String) : Bool :=
  !s.enabled || n2 == ""

/-- Group-chat tracking in showTypingIndicator: add _args.character_name when
group support is on and the name is present and truthy (an empty string is
falsy in the source's condition). -/
def trackGroupCharacter (s : Settings) (cn : Option String) (st : TIState) : TIState :=
  { st with typingCharacters :=
      if s.groupChatSupport then
        match cn with
        | some n => if n = "" then st.typingCharacters
                    else addTypingCharacter n st.typingCharacters
        | none => st.typingCharacters
      else st.typingCharacters }

/-- The in-place update of an already existing indicator node: innerHTML is
replaced and className is reassigned to the base, position, style, theme and
visible classes (which drops any hiding or paused class). -/
def showUpdateExisting (s : Settings) (html : RenderOut) (node : CharNode) : CharNode :=
  { node with
    content := html
    posClass := "typing-position-" ++ s.position
    styleClass := "typing-style-" ++ s.style
    themeClass := "typing-theme-" ++ s.animationTheme
    visibleCls := true
    hidingCls := false
    pausedCls := false }

/-- A freshly created indicator node as it stands after the creation path of
showTypingIndicator (className assigned, then classList.add of visible after
the forced reflow). -/
def showCreateNode (s : Settings) (html : RenderOut) : CharNode :=
  { content := html
    posClass := "typing-position-" ++ s.position
    styleClass := "typing-style-" ++ s.style
    themeClass := "typing-theme-" ++ s.animationTheme
    visibleCls := true
    hidingCls := false
    pausedCls := false }

/-- The sound setup of showTypingIndicator lines 609-619: the first cue plays
immediately (a stateless audio side effect), then setInterval registers the
repeating cue callback with one delay of 300 + Math.random() * 200 ms. -/
def startSoundInterval (r : ℚ) (st : TIState) : TIState :=
  { addTimer TimerKind.soundLoop (300 + r * 200) st with soundInterval := some st.fresh }

/-- Whether one firing of the sound interval callback plays a cue
(the guard isIndicatorVisible && settings.soundEnabled inside the callback;
the interval itself stays registered either way). -/
def soundTickPlays (visible soundEnabled : Bool) : Bool :=
  visible && soundEnabled

/-- The jittered volume of a repeat cue:
settings.soundVolume * (0.6 + Math.random() * 0.4). -/
def soundTickVolume (volume r : ℚ) : ℚ :=
  volume * (6/10 + r * (4/10))

/-- initThinkingObserver from src/index.js lines 657-754 (registration part):
no-op when showThinking is off, when an observer is already running, or when
the chat container is missing; otherwise connects a new observer. -/
def initThinkingObserver (s : Settings) (st : TIState) : TIState :=
  if !s.showThinking then st
  else if st.thinkingObserver.isSome then st
  else if !st.chatExists then st
  else { addTimer TimerKind.thinkObs 0 st with thinkingObserver := some st.fresh }

/-- schedulePause from src/index.js lines 771-788.  rP, rD, rN are the three
Math.random() draws of one tick: the pause coin, the pause duration and the
next-check delay.  If the node is gone or the indicator is not visible the
tick returns without rescheduling; otherwise it may add the paused class and
schedule its one-shot removal, and always schedules the next tick. -/
def schedulePause (s : Settings) (rP rD rN : ℚ) (st : TIState) : TIState :=
  match st.charNodes with
  | [] => st
  | node :: rest =>
    if !st.isIndicatorVisible then st
    else
      let pauseDuration := 300 + rD * 600
      let nextCheck := 800 + rN * 1500
      let st1 :=
        if rP < s.pauseChance then
          addTimer TimerKind.pauseEnd pauseDuration
            { st with charNodes := { node with pausedCls := true } :: rest }
        else st
      { addTimer TimerKind.pauseLoop nextCheck st1 with pauseTimeout := some st1.fresh }

/-- The one-shot callback scheduled by schedulePause when a pause is applied:
re-query the node and remove the paused class if it still exists. -/
def firePauseEnd (st : TIState) : TIState :=
  match st.charNodes with
  | [] => st
  | node :: rest => { st with charNodes := { node with pausedCls := false } :: rest }

/-- The tail of showTypingIndicator's creation path: simulate pauses when
enabled and not currently thinking (lines 625-627). -/
def showMaybePause (s : Settings) (rP rD rN : ℚ) (st4 : TIState) : TIState :=
  if s.simulatePauses && !st4.isCharThinking then schedulePause s rP rD rN st4 else st4

/-- The loop start-up of showTypingIndicator's creation path (lines 609-627):
first the sound interval when sound is enabled, then the thinking observer,
then possibly the pause loop. -/
def showStartLoops (s : Settings) (r1 r2 r3 r4 : ℚ) (st2 : TIState) : TIState :=
  showMaybePause s r2 r3 r4
    (initThinkingObserver s (if s.soundEnabled then startSoundInterval r1 st2 else st2))

/-- The creation path of showTypingIndicator (lines 574-627): bail out when
the chat container is missing (the freshly created element is then never
appended); otherwise append the node, set the visibility flag, and start the
loops.  Glow styling and scrolling are stateless and not recorded. -/
def showCreatePath (s : Settings) (html : RenderOut) (r1 r2 r3 r4 : ℚ)
    (st1 : TIState) : TIState :=
  if !st1.chatExists then st1
  else showStartLoops s r1 r2 r3 r4
    { st1 with charNodes := [showCreateNode s html], isIndicatorVisible := true }

/-- The body of showTypingIndicator after its guards (lines 548-628): render,
then either update the already existing node in place and return, or run the
creation path. -/
def showAfterGuards (s : Settings) (n1 n2 : String) (r1 r2 r3 r4 : ℚ)
    (st1 : TIState) : TIState :=
  match st1.charNodes with
  | node :: rest =>
    { st1 with charNodes :=
        (showUpdateExisting s
          (generateIndicatorHTML s n1 n2 st1.typingCharacters false st1.isCharThinking)
          node) :: rest }
  | [] =>
    showCreatePath s
      (generateIndicatorHTML s n1 n2 st1.typingCharacters false st1.isCharThinking)
      r1 r2 r3 r4 st1

/-- showTypingIndicator from src/index.js lines 536-628.  n1/n2 are the host
globals name1/name2; cn is _args.character_name; r1 feeds the sound interval
delay and r2-r4 feed schedulePause.  After the two early-return guards the
source runs clearTimers, resets isCharThinking (line 552, redundant with
clearTimers), tracks the group character, and renders with the just-reset
thinking flag; the first cue and the scroll handling are stateless side
effects and are not recorded. -/
def showTypingIndicator (s : Settings) (n1 n2 : String) (ty : String)
    (cn : Option String) (dryRun : Bool) (r1 r2 r3 r4 : ℚ) (st : TIState) : TIState :=
  if showGuard ty dryRun then st
  else if showPre s n2 then st
  else showAfterGuards s n1 n2 r1 r2 r3 r4
    (trackGroupCharacter s cn { clearTimers st with isCharThinking := false })

/-- The node phase of hideTypingIndicator: if the node exists, swap the
visible class for the hiding class and schedule the 250ms removal timeout. -/
def hideNodePhase (st2 : TIState) : TIState :=
  match st2.charNodes with
  | [] => st2
  | node :: rest =>
    addTimer TimerKind.hideRemove 250
      { st2 with charNodes := { node with visibleCls := false, hidingCls := true } :: rest }

/-- hideTypingIndicator from src/index.js lines 793-807: clears visibility,
tears down the timers/observer, and if the node exists swaps visible for
hiding and schedules its removal after 250ms. -/
def hideTypingIndicator (st : TIState) : TIState :=
  hideNodePhase (clearTimers { st with isIndicatorVisible := false })

/-- The handler registered for GENERATION_STOPPED, GENERATION_ENDED and
CHAT_CHANGED (src/index.js lines 1302-1307): clear typingCharacters, then
hideTypingIndicator. -/
def hideOnEvent (st : TIState) : TIState :=
  hideTypingIndicator { st with typingCharacters := [] }

/-- showUserTypingIndicator from src/index.js lines 1238-1278: bail out unless
both the master switch and the user indicator are enabled; cancel the running
idle timeout; create and insert the node before the send form only if it does
not already exist (and only if the send form is present); finally arm a fresh
idle timeout of settings.userTypingTimeoutMs || 600 ms. -/
def showUserTypingIndicator (s : Settings) (st : TIState) : TIState :=
  if !s.enabled || !s.userTypingEnabled then st
  else
    let st1 := { st with
      pending := clearById st.userTypingTimeout st.pending
      userTypingTimeout := none }
    let st2 :=
      if !st1.userNodeExists then
        if st1.sendFormExists then { st1 with userNodeExists := true } else st1
      else st1
    { addTimer TimerKind.userIdle
        (if s.userTypingTimeoutMs = 0 then 600 else s.userTypingTimeoutMs) st2 with
      userTypingTimeout := some st2.fresh }

/-- hideUserTypingIndicator from src/index.js lines 1283-1290 (also the
MESSAGE_SENT handler, line 1311): cancel the idle timeout if armed and remove
the node immediately. -/
def hideUserTypingIndicator (st : TIState) : TIState :=
  { st with
    pending := clearById st.userTypingTimeout st.pending
    userTypingTimeout := none
    userNodeExists := false }

/-- The handle variable that owns live callbacks of a given kind (none for
the two anonymous one-shot timeouts, which no handle ever stores). -/
def loopHandle (st : TIState) : TimerKind → Option Nat
  | TimerKind.soundLoop => st.soundInterval
  | TimerKind.pauseLoop => st.pauseTimeout
  | TimerKind.thinkObs => st.thinkingObserver
  | TimerKind.userIdle => st.userTypingTimeout
  | TimerKind.pauseEnd => none
  | TimerKind.hideRemove => none

/-- Number of live callbacks of one kind. -/
def countKind (k : TimerKind) (st : TIState) : Nat :=
  (st.pending.filter (fun p => decide (p.kind = k))).length

/-- Well-formedness of a state reachable by the extension: every live
handle-owned callback is the one its handle stores, live ids are distinct and
below the fresh counter, and at most one indicator node exists. -/
def WF (st : TIState) : Prop :=
  (∀ p ∈ st.pending, p.kind ≠ TimerKind.pauseEnd → p.kind ≠ TimerKind.hideRemove →
      loopHandle st p.kind = some p.id) ∧
  (st.pending.map Pending.id).Nodup ∧
  (∀ p ∈ st.pending, p.id < st.fresh) ∧
  st.charNodes.length ≤ 1

/-- The runtime state named by the hide-idempotence property: the visibility
and thinking flags, the typing-character set, the three loop handles, the
live sound/pause/observer callbacks, and the indicator node itself.  The
fresh-id counter and the anonymous one-shot removal timeouts are bookkeeping
of the embedding, not extension runtime state. -/
structure RuntimeObs where
  visible : Bool
  thinking : Bool
  typingCharacters : List String
  soundInterval : Option Nat
  pauseTimeout : Option Nat
  thinkingObserver : Option Nat
  loopCallbacks : List Pending
  charNodes : List CharNode
  deriving DecidableEq, Repr

/-- Projection of a state onto its claim-relevant runtime observables. -/
def runtimeObs (st : TIState) : RuntimeObs :=
  { visible := st.isIndicatorVisible
    thinking := st.isCharThinking
    typingCharacters := st.typingCharacters
    soundInterval := st.soundInterval
    pauseTimeout := st.pauseTimeout
    thinkingObserver := st.thinkingObserver
    loopCallbacks := st.pending.filter (fun p =>
      decide (p.kind = TimerKind.soundLoop ∨ p.kind = TimerKind.pauseLoop ∨
        p.kind = TimerKind.thinkObs))
    charNodes := st.charNodes }

/-- One generation-start event together with the random draws its handling
consumes. -/
structure GenStart where
  ty : String
  charName : Option String
  dryRun : Bool
  r1 : ℚ
  r2 : ℚ
  r3 : ℚ
  r4 : ℚ
  deriving DecidableEq, Repr

/-- A run of consecutive generation-start events with no intervening
stop/end/chat-changed. -/
def runStarts (s : Settings) (n1 n2 : String) (evs : List GenStart) (st : TIState) : TIState :=
  evs.foldl (fun acc e =>
    showTypingIndicator s n1 n2 e.ty e.charName e.dryRun e.r1 e.r2 e.r3 e.r4 acc) st

/-! ### The thinking MutationObserver callback (src/index.js lines 674-734)

The observer callback is a pure function of the chat DOM at delivery time, the
visibility flag, the current isCharThinking value, and the mutation batch.  A
reasoning-block element (class mes_reasoning_details) is identified by an
element id; a chat message (class mes, an ancestor) carries the ids of the
reasoning elements it contains.  DOM Node.contains includes the node itself,
which the containment helper mirrors. -/

/-- A mes_reasoning_details element with its data-state attribute value as
read at callback time. -/
structure RNode where
  elemId : Nat
  dataState : String
  deriving DecidableEq, Repr

/-- A .mes chat message element: its own element id and the ids of the
reasoning-block elements contained in its subtree. -/
structure ChatMessage where
  elemId : Nat
  reasoningIds : List Nat
  deriving DecidableEq, Repr

/-- One observed mutation: a childList mutation carries, for each added
element node, the reasoning-block element it is or contains (none when it has
no reasoning block); an attribute mutation on data-state carries its target
reasoning-block element. -/
inductive ChatMutation where
  | childList (added : List (Option RNode))
  | attrState (target : RNode)
  deriving DecidableEq, Repr

/-- currentLastMessage.contains(node) || node === currentLastMessage:
DOM contains already includes the node itself, so both source spellings of
the check reduce to this. -/
def inLastMessage (lastMsg : ChatMessage) (nid : Nat) : Bool :=
  lastMsg.reasoningIds.contains nid || lastMsg.elemId == nid

/-- Processing of one added node of a childList mutation: skip nodes without
a reasoning block and reasoning blocks outside the current last message;
activate thinking (and re-render) when the inserted block's state reads
thinking.  The accumulator is the isCharThinking flag together with the trace
of updateThinkingUI calls, each recorded as the flag value it rendered. -/
def observerProcessAdded (lastMsg : ChatMessage) (a : Bool × List Bool)
    (nd : Option RNode) : Bool × List Bool :=
  match nd with
  | none => a
  | some rd =>
    if !(inLastMessage lastMsg rd.elemId) then a
    else if rd.dataState = "thinking" then (true, a.2 ++ [true])
    else a

/-- Processing of one mutation inside the observer callback: the attribute
branch toggles on thinking when not thinking, and off on done when thinking,
after the same containment check. -/
def observerProcessMutation (lastMsg : ChatMessage) (acc : Bool × List Bool)
    (m : ChatMutation) : Bool × List Bool :=
  match m with
  | ChatMutation.childList added => added.foldl (observerProcessAdded lastMsg) acc
  | ChatMutation.attrState t =>
    if !(inLastMessage lastMsg t.elemId) then acc
    else if t.dataState = "thinking" && !acc.1 then (true, acc.2 ++ [true])
    else if t.dataState = "done" && acc.1 then (false, acc.2 ++ [false])
    else acc

/-- One delivery of a mutation batch to the thinking observer: return
unchanged when the indicator is not visible; recompute the current last
message fresh from the DOM and return unchanged when there is none; otherwise
process the batch in order. -/
def observerBatch (visible : Bool) (msgs : List ChatMessage) (thinking : Bool)
    (muts : List ChatMutation) : Bool × List Bool :=
  if !visible then (thinking, [])
  else
    match msgs.getLast? with
    | none => (thinking, [])
    | some lastMsg => muts.foldl (observerProcessMutation lastMsg) (thinking, [])

/-- An added node carries no reasoning block belonging to the given last
message. -/
def addedOutsideLast (lastMsg : ChatMessage) (nd : Option RNode) : Bool :=
  match nd with
  | none => true
  | some rd => !(inLastMessage lastMsg rd.elemId)

/-- Every reasoning-block element a mutation touches lies outside the given
last message. -/
def mutOutsideLast (lastMsg : ChatMessage) : ChatMutation → Bool
  | ChatMutation.childList added => added.all (addedOutsideLast lastMsg)
  | ChatMutation.attrState t => !(inLastMessage lastMsg t.elemId)

/-! ### The sound-pacing loop in isolation (src/index.js lines 610-619)

The repository schedules the repeating cue with setInterval, so one delay is
drawn when the loop starts and reused for every cycle. -/

/-- The sound loop as created by showTypingIndicator: a setInterval
registration with its single period. -/
structure SoundLoop where
  delay : ℚ
  deriving DecidableEq, Repr

/-- soundInterval = setInterval(..., 300 + Math.random() * 200): the period
is drawn once, at loop creation. -/
def startSoundLoop (r : ℚ) : SoundLoop :=
  ⟨300 + r * 200⟩

/-- Time of the k-th interval firing after loop start (setInterval fires at
delay, 2*delay, 3*delay, ...). -/
def soundTickTime (L : SoundLoop) (k : ℕ) : ℚ :=
  ((k : ℚ) + 1) * L.delay

/-- The inter-cue gap between the k-th and (k+1)-th repeat cues. -/
def soundGap (L : SoundLoop) (k : ℕ) : ℚ :=
  soundTickTime L (k + 1) - soundTickTime L k

/-- A second definition following the spec's words, for comparison with the
code: the claim's loop draws a fresh delay every cycle, from [300,500] ms in
standard mode and from [150,600] ms when a dynamic-rhythm option is set. -/
def specFreshSoundGap (dynamicRhythm : Bool) (r : ℕ → ℚ) (k : ℕ) : ℚ :=
  if dynamicRhythm then 150 + r k * 450 else 300 + r k * 200

/-- A concrete random stream whose first two draws differ, separating a
once-drawn period from per-cycle fresh draws. -/
def exRand : ℕ → ℚ :=
  fun n => if n = 0 then 0 else 1/2

/-! ### Stream-gated sound (modelled from the spec)

src/index.js contains no pendingSoundOnStream flag and no stream-token
handler; the spec describes them for the repository's most complete revision,
which is not among the provided sources. -/

/-- Modelled from the spec: the state of the stream-gated sound feature
(spec sections 3 and 4.1-4.2) - the pendingSoundOnStream flag, whether the
sound-pacing loop has been started, and indicator visibility.  The feature's
code is missing from src/. -/
structure GatedSoundState where
  pendingSoundOnStream : Bool
  soundLoopLive : Bool
  visible : Bool
  deriving DecidableEq, Repr

/-- Modelled from the spec: the sound decision at generation start - if sound
is enabled, either start the pacing loop immediately or, when the
gate-sound-on-stream option is set, mark pendingSoundOnStream and defer. -/
def onGenStartSound (soundEnabled gateOnStream : Bool) (st : GatedSoundState) :
    GatedSoundState :=
  if soundEnabled then
    if gateOnStream then { st with pendingSoundOnStream := true }
    else { st with soundLoopLive := true }
  else st

/-- Modelled from the spec: the first-stream-token handler - if a sound was
deferred and the indicator is still visible and sound remains enabled, clear
the flag and start the pacing loop; otherwise do nothing. -/
def onStreamToken (soundEnabled : Bool) (st : GatedSoundState) : GatedSoundState :=
  if st.pendingSoundOnStream && st.visible && soundEnabled then
    { st with pendingSoundOnStream := false, soundLoopLive := true }
  else st

/-! ### User-side keystroke sound cue (modelled from the spec)

showUserTypingIndicator in src/index.js plays no sound; the spec (section
4.4) describes a keystroke cue for the repository's most complete revision,
which is not among the provided sources. -/

/-- The fixed sound theme the spec assigns to the user side. -/
def userSoundTheme : String := "ios"

/-- Modelled from the spec: the sound cue played on a raw input event in the
composition field (spec section 4.4) - when the master switch, the user
indicator and sound are all enabled, one cue plays immediately at the
configured volume independently jittered to 70-100 percent, with the fixed
user-side theme.  The feature's code is missing from src/. -/
def userKeystrokeCue (enabled userTypingEnabled soundEnabled : Bool)
    (volume r : ℚ) : Option (ℚ × String) :=
  if enabled && userTypingEnabled && soundEnabled then
    some (volume * (7/10 + r * (3/10)), userSoundTheme)
  else none

/-! ## Lemmas -/

theorem mem_of_mem_clearById {i : Option Nat} {l : List Pending} {p : Pending}
    (h : p ∈ clearById i l) : p ∈ l := by
  cases i with
  | none => exact h
  | some idv =>
    simp only [clearById] at h
    exact List.mem_of_mem_filter h

theorem ne_of_mem_clearById {idv : Nat} {l : List Pending} {p : Pending}
    (h : p ∈ clearById (some idv) l) : p.id ≠ idv := by
  simp only [clearById] at h
  rcases List.mem_filter.mp h with ⟨-, h2⟩
  exact of_decide_eq_true h2

theorem clearById_sublist (i : Option Nat) (l : List Pending) :
    (clearById i l).Sublist l := by
  cases i with
  | none => simp [clearById]
  | some idv =>
    simp only [clearById]
    exact List.filter_sublist l

/-- A state surviving clearTimers carries no sound-loop, pause-loop or
observer registration: in a well-formed state each of those is owned by the
handle clearTimers cancels. -/
theorem clearTimers_kinds {st : TIState} (h : WF st) :
    ∀ p ∈ (clearTimers st).pending,
      p.kind ≠ TimerKind.soundLoop ∧ p.kind ≠ TimerKind.pauseLoop ∧
        p.kind ≠ TimerKind.thinkObs := by
  intro p hp
  obtain ⟨hh, -, -, -⟩ := h
  have hp0 : p ∈ clearById st.thinkingObserver
      (clearById st.soundInterval (clearById st.pauseTimeout st.pending)) := hp
  have hp1 : p ∈ clearById st.soundInterval (clearById st.pauseTimeout st.pending) :=
    mem_of_mem_clearById hp0
  have hp2 : p ∈ clearById st.pauseTimeout st.pending := mem_of_mem_clearById hp1
  have hp3 : p ∈ st.pending := mem_of_mem_clearById hp2
  refine ⟨?_, ?_, ?_⟩
  · intro hk
    have hhd := hh p hp3 (by rw [hk]; intro hc; cases hc) (by rw [hk]; intro hc; cases hc)
    rw [hk] at hhd
    have hsi : st.soundInterval = some p.id := hhd
    rw [hsi] at hp1
    exact ne_of_mem_clearById hp1 rfl
  · intro hk
    have hhd := hh p hp3 (by rw [hk]; intro hc; cases hc) (by rw [hk]; intro hc; cases hc)
    rw [hk] at hhd
    have hsi : st.pauseTimeout = some p.id := hhd
    rw [hsi] at hp2
    exact ne_of_mem_clearById hp2 rfl
  · intro hk
    have hhd := hh p hp3 (by rw [hk]; intro hc; cases hc) (by rw [hk]; intro hc; cases hc)
    rw [hk] at hhd
    have hsi : st.thinkingObserver = some p.id := hhd
    rw [hsi] at hp0
    exact ne_of_mem_clearById hp0 rfl

theorem countKind_eq_zero_iff {st : TIState} {k : TimerKind} :
    countKind k st = 0 ↔ ∀ p ∈ st.pending, p.kind ≠ k := by
  unfold countKind
  rw [List.length_eq_zero, List.filter_eq_nil_iff]
  constructor
  · intro h p hp
    have := h p hp
    simpa using this
  · intro h p hp
    simpa using h p hp

theorem countKind_clearTimers {st : TIState} (h : WF st) {k : TimerKind}
    (hk : k = TimerKind.soundLoop ∨ k = TimerKind.pauseLoop ∨ k = TimerKind.thinkObs) :
    countKind k (clearTimers st) = 0 := by
  rw [countKind_eq_zero_iff]
  intro p hp
  have h3 := clearTimers_kinds h p hp
  rcases hk with rfl | rfl | rfl
  · exact h3.1
  · exact h3.2.1
  · exact h3.2.2

theorem wf_clearTimers {st : TIState} (h : WF st) : WF (clearTimers st) := by
  obtain ⟨hh, hnd, hfr, hnode⟩ := h
  have hsub : (clearTimers st).pending.Sublist st.pending :=
    ((clearById_sublist _ _).trans ((clearById_sublist _ _).trans (clearById_sublist _ _)))
  refine ⟨?_, ?_, ?_, ?_⟩
  · intro p hp h1 h2
    have hk := clearTimers_kinds ⟨hh, hnd, hfr, hnode⟩ p hp
    have hmem : p ∈ st.pending := hsub.mem hp
    have hu : p.kind = TimerKind.userIdle := by
      cases hpk : p.kind
      · exact absurd hpk hk.1
      · exact absurd hpk hk.2.1
      · exact absurd hpk h1
      · exact absurd hpk h2
      · rfl
      · exact absurd hpk hk.2.2
    rw [hu]
    have := hh p hmem (by rw [hu]; intro hc; cases hc) (by rw [hu]; intro hc; cases hc)
    rw [hu] at this
    exact this
  · exact hnd.sublist (hsub.map Pending.id)
  · intro p hp
    exact hfr p (hsub.mem hp)
  · exact hnode

theorem nodup_id_cons {st : TIState} (hnd : (st.pending.map Pending.id).Nodup)
    (hfr : ∀ p ∈ st.pending, p.id < st.fresh) (k : TimerKind) (d : ℚ) :
    (((⟨st.fresh, k, d⟩ : Pending) :: st.pending).map Pending.id).Nodup := by
  rw [List.map_cons, List.nodup_cons]
  refine ⟨?_, hnd⟩
  intro hmem
  obtain ⟨q, hq, hqe⟩ := List.mem_map.mp hmem
  have hqe2 : q.id = st.fresh := hqe
  have := hfr q hq
  omega

theorem fresh_bound_cons {st : TIState} (hfr : ∀ p ∈ st.pending, p.id < st.fresh)
    (k : TimerKind) (d : ℚ) :
    ∀ p ∈ (⟨st.fresh, k, d⟩ : Pending) :: st.pending, p.id < st.fresh + 1 := by
  intro p hp
  rcases List.mem_cons.mp hp with rfl | hp2
  · exact Nat.lt_succ_self _
  · exact Nat.lt_succ_of_lt (hfr p hp2)

theorem countKind_addTimer {st : TIState} {k k2 : TimerKind} (d : ℚ) (hk : k2 ≠ k) :
    countKind k (addTimer k2 d st) = countKind k st := by
  simp [countKind, addTimer, List.filter_cons, hk]

/-- Registering a one-shot timeout no handle owns (the paused-class removal
or the hide fade-out removal) preserves well-formedness. -/
theorem wf_addTimer_exempt {st : TIState} (h : WF st) {k : TimerKind}
    (hk : k = TimerKind.pauseEnd ∨ k = TimerKind.hideRemove) (d : ℚ) :
    WF (addTimer k d st) := by
  obtain ⟨hh, hnd, hfr, hnode⟩ := h
  refine ⟨?_, nodup_id_cons hnd hfr _ _, fresh_bound_cons hfr _ _, hnode⟩
  intro p hp h1 h2
  rcases List.mem_cons.mp hp with rfl | hp2
  · rcases hk with rfl | rfl
    · exact absurd rfl h1
    · exact absurd rfl h2
  · exact hh p hp2 h1 h2

theorem wf_startSoundInterval {st : TIState} (h : WF st)
    (hzero : countKind TimerKind.soundLoop st = 0) (r : ℚ) :
    WF (startSoundInterval r st) := by
  obtain ⟨hh, hnd, hfr, hnode⟩ := h
  have hz := countKind_eq_zero_iff.mp hzero
  refine ⟨?_, nodup_id_cons hnd hfr _ _, fresh_bound_cons hfr _ _, hnode⟩
  intro p hp h1 h2
  rcases List.mem_cons.mp hp with rfl | hp2
  · rfl
  · have hold := hh p hp2 h1 h2
    cases hpk : p.kind with
    | soundLoop => exact absurd hpk (hz p hp2)
    | pauseLoop => rw [hpk] at hold; exact hold
    | thinkObs => rw [hpk] at hold; exact hold
    | userIdle => rw [hpk] at hold; exact hold
    | pauseEnd => exact absurd hpk h1
    | hideRemove => exact absurd hpk h2

theorem wf_initThinkingObserver {st : TIState} (h : WF st) (s : Settings) :
    WF (initThinkingObserver s st) := by
  unfold initThinkingObserver
  split
  · exact h
  split
  · exact h
  split
  · exact h
  obtain ⟨hh, hnd, hfr, hnode⟩ := h
  refine ⟨?_, nodup_id_cons hnd hfr _ _, fresh_bound_cons hfr _ _, hnode⟩
  intro p hp h1 h2
  rcases List.mem_cons.mp hp with rfl | hp2
  · rfl
  · have hold := hh p hp2 h1 h2
    cases hpk : p.kind with
    | soundLoop => rw [hpk] at hold; exact hold
    | pauseLoop => rw [hpk] at hold; exact hold
    | thinkObs =>
      rw [hpk] at hold
      exfalso
      rename_i hthink hsome hchat
      have hx : st.thinkingObserver = some p.id := hold
      rw [hx] at hsome
      simp at hsome
    | userIdle => rw [hpk] at hold; exact hold
    | pauseEnd => exact absurd hpk h1
    | hideRemove => exact absurd hpk h2

theorem countKind_startSoundInterval (r : ℚ) (st : TIState) {k : TimerKind}
    (hk : k ≠ TimerKind.soundLoop) :
    countKind k (startSoundInterval r st) = countKind k st := by
  have hk2 : TimerKind.soundLoop ≠ k := fun he => hk he.symm
  simp [countKind, startSoundInterval, addTimer, List.filter_cons, hk2]

theorem countKind_initThinkingObserver (s : Settings) (st : TIState) {k : TimerKind}
    (hk : k ≠ TimerKind.thinkObs) :
    countKind k (initThinkingObserver s st) = countKind k st := by
  have hk2 : TimerKind.thinkObs ≠ k := fun he => hk he.symm
  unfold initThinkingObserver
  split
  · rfl
  split
  · rfl
  split
  · rfl
  simp [countKind, addTimer, List.filter_cons, hk2]

/-- The generic step for registering a pause-loop timeout and storing its id
in pauseTimeout, as schedulePause does last. -/
theorem wf_registerPauseLoop {st : TIState} (h : WF st)
    (hzero : countKind TimerKind.pauseLoop st = 0) (d : ℚ) :
    WF { addTimer TimerKind.pauseLoop d st with pauseTimeout := some st.fresh } := by
  obtain ⟨hh, hnd, hfr, hnode⟩ := h
  have hz := countKind_eq_zero_iff.mp hzero
  refine ⟨?_, nodup_id_cons hnd hfr _ _, fresh_bound_cons hfr _ _, hnode⟩
  intro p hp h1 h2
  rcases List.mem_cons.mp hp with rfl | hp2
  · rfl
  · have hold := hh p hp2 h1 h2
    cases hpk : p.kind with
    | soundLoop => rw [hpk] at hold; exact hold
    | pauseLoop => exact absurd hpk (hz p hp2)
    | thinkObs => rw [hpk] at hold; exact hold
    | userIdle => rw [hpk] at hold; exact hold
    | pauseEnd => exact absurd hpk h1
    | hideRemove => exact absurd hpk h2

theorem wf_schedulePause {st : TIState} (h : WF st)
    (hzero : countKind TimerKind.pauseLoop st = 0) (s : Settings) (rP rD rN : ℚ) :
    WF (schedulePause s rP rD rN st) := by
  unfold schedulePause
  split
  · exact h
  rename_i node rest hnodes
  split
  · exact h
  have hlen : ({ node with pausedCls := true } :: rest).length ≤ 1 := by
    have := h.2.2.2
    rw [hnodes] at this
    simpa using this
  have h1 : WF { st with charNodes := { node with pausedCls := true } :: rest } :=
    ⟨h.1, h.2.1, h.2.2.1, hlen⟩
  by_cases hcoin : rP < s.pauseChance
  · simp only [if_pos hcoin]
    exact wf_registerPauseLoop
      (wf_addTimer_exempt h1 (Or.inl rfl) _)
      (by
        rw [countKind_addTimer _ (by intro hc; cases hc)]
        exact hzero) _
  · simp only [if_neg hcoin]
    exact wf_registerPauseLoop h hzero _

/-- Well-formedness only reads the registry, the four handles, the fresh
counter and the node list; states agreeing there are equally well-formed. -/
theorem wf_of_parts {st st2 : TIState} (h : WF st)
    (hpend : st2.pending = st.pending)
    (hsi : st2.soundInterval = st.soundInterval)
    (hpt : st2.pauseTimeout = st.pauseTimeout)
    (hto : st2.thinkingObserver = st.thinkingObserver)
    (hut : st2.userTypingTimeout = st.userTypingTimeout)
    (hfresh : st2.fresh = st.fresh)
    (hlen : st2.charNodes.length ≤ 1) : WF st2 := by
  obtain ⟨hh, hnd, hf, -⟩ := h
  refine ⟨?_, ?_, ?_, hlen⟩
  · intro p hp h1 h2
    have hl : loopHandle st2 p.kind = loopHandle st p.kind := by
      cases p.kind <;> simp [loopHandle, hsi, hpt, hto, hut]
    rw [hl]
    exact hh p (by rw [← hpend]; exact hp) h1 h2
  · rw [hpend]; exact hnd
  · intro p hp
    rw [hfresh]
    exact hf p (by rw [← hpend]; exact hp)

theorem countKind_congr {st st2 : TIState} (hpend : st2.pending = st.pending)
    (k : TimerKind) : countKind k st2 = countKind k st := by
  simp [countKind, hpend]

/-- Invariant preservation for one generation-start event. -/
theorem wf_showTypingIndicator {st : TIState} (h : WF st) (s : Settings)
    (n1 n2 ty : String) (cn : Option String) (dryRun : Bool) (r1 r2 r3 r4 : ℚ) :
    WF (showTypingIndicator s n1 n2 ty cn dryRun r1 r2 r3 r4 st) := by
  unfold showTypingIndicator
  split
  · exact h
  split
  · exact h
  have hclear : WF (clearTimers st) := wf_clearTimers h
  have h1 : WF (trackGroupCharacter s cn { clearTimers st with isCharThinking := false }) :=
    wf_of_parts hclear rfl rfl rfl rfl rfl rfl hclear.2.2.2
  have hc0 : ∀ k, k = TimerKind.soundLoop ∨ k = TimerKind.pauseLoop ∨ k = TimerKind.thinkObs →
      countKind k (trackGroupCharacter s cn { clearTimers st with isCharThinking := false }) = 0 := by
    intro k hk
    rw [countKind_congr rfl]
    exact countKind_clearTimers h hk
  set stg := trackGroupCharacter s cn { clearTimers st with isCharThinking := false } with hstg
  clear_value stg
  unfold showAfterGuards
  split
  · rename_i node rest hnodes
    refine wf_of_parts h1 rfl rfl rfl rfl rfl rfl ?_
    have := h1.2.2.2
    rw [hnodes] at this
    simpa using this
  · unfold showCreatePath
    split
    · exact h1
    have h2 : WF { stg with
        charNodes := [showCreateNode s
          (generateIndicatorHTML s n1 n2 stg.typingCharacters false stg.isCharThinking)]
        isIndicatorVisible := true } :=
      wf_of_parts h1 rfl rfl rfl rfl rfl rfl (by simp)
    set st2 := { stg with
        charNodes := [showCreateNode s
          (generateIndicatorHTML s n1 n2 stg.typingCharacters false stg.isCharThinking)]
        isIndicatorVisible := true } with hst2
    have hc2 : ∀ k, k = TimerKind.soundLoop ∨ k = TimerKind.pauseLoop ∨ k = TimerKind.thinkObs →
        countKind k st2 = 0 := by
      intro k hk
      rw [hst2, countKind_congr rfl]
      exact hc0 k hk
    clear_value st2
    unfold showStartLoops
    set st3 := if s.soundEnabled then startSoundInterval r1 st2 else st2 with hst3
    have h3 : WF st3 := by
      rw [hst3]
      split
      · exact wf_startSoundInterval h2 (hc2 _ (Or.inl rfl)) r1
      · exact h2
    have hc3 : countKind TimerKind.pauseLoop st3 = 0 := by
      rw [hst3]
      split
      · rw [countKind_startSoundInterval _ _ (by intro hc; cases hc)]
        exact hc2 _ (Or.inr (Or.inl rfl))
      · exact hc2 _ (Or.inr (Or.inl rfl))
    clear_value st3
    have h4 : WF (initThinkingObserver s st3) := wf_initThinkingObserver h3 s
    have hc4 : countKind TimerKind.pauseLoop (initThinkingObserver s st3) = 0 := by
      rw [countKind_initThinkingObserver _ _ (by intro hc; cases hc)]
      exact hc3
    set st4 := initThinkingObserver s st3 with hst4
    clear_value st4
    unfold showMaybePause
    split
    · exact wf_schedulePause h4 hc4 s r2 r3 r4
    · exact h4

theorem length_le_one_of_all_eq {l : List Nat} (c : Nat) (hnd : l.Nodup)
    (h : ∀ x ∈ l, x = c) : l.length ≤ 1 := by
  cases l with
  | nil => simp
  | cons a t =>
    cases t with
    | nil => simp
    | cons b t2 =>
      exfalso
      rw [List.nodup_cons] at hnd
      have ha := h a (by simp)
      have hb := h b (by simp)
      exact hnd.1 (by simp [ha, hb])

/-- In a well-formed state there is at most one live callback of each
handle-owned kind. -/
theorem countKind_le_one {st : TIState} (h : WF st) {k : TimerKind}
    (h1 : k ≠ TimerKind.pauseEnd) (h2 : k ≠ TimerKind.hideRemove) :
    countKind k st ≤ 1 := by
  obtain ⟨hh, hnd, -, -⟩ := h
  unfold countKind
  have hsubnd : ((st.pending.filter (fun p => decide (p.kind = k))).map Pending.id).Nodup :=
    hnd.sublist ((List.filter_sublist _).map Pending.id)
  rcases hl : loopHandle st k with _ | hid
  · have hnil : st.pending.filter (fun p => decide (p.kind = k)) = [] := by
      rw [List.filter_eq_nil_iff]
      intro p hp hdec
      have hpk : p.kind = k := of_decide_eq_true hdec
      have hhd := hh p hp (by rw [hpk]; exact h1) (by rw [hpk]; exact h2)
      rw [hpk, hl] at hhd
      cases hhd
    simp [hnil]
  · rw [← List.length_map _ Pending.id]
    apply length_le_one_of_all_eq hid hsubnd
    intro x hx
    obtain ⟨p, hp, rfl⟩ := List.mem_map.mp hx
    rcases List.mem_filter.mp hp with ⟨hpm, hdec⟩
    have hpk : p.kind = k := of_decide_eq_true hdec
    have hhd := hh p hpm (by rw [hpk]; exact h1) (by rw [hpk]; exact h2)
    rw [hpk, hl] at hhd
    exact (Option.some.inj hhd).symm

theorem wf_initState : WF initState :=
  ⟨fun p hp => absurd hp (List.not_mem_nil p), List.nodup_nil,
   fun p hp => absurd hp (List.not_mem_nil p), by simp [initState]⟩

theorem wf_runStarts (s : Settings) (n1 n2 : String) (evs : List GenStart) :
    ∀ st : TIState, WF st → WF (runStarts s n1 n2 evs st) := by
  induction evs with
  | nil => exact fun st h => h
  | cons e evs ih =>
    intro st h
    show WF (runStarts s n1 n2 evs
      (showTypingIndicator s n1 n2 e.ty e.charName e.dryRun e.r1 e.r2 e.r3 e.r4 st))
    exact ih _ (wf_showTypingIndicator h s n1 n2 e.ty e.charName e.dryRun e.r1 e.r2 e.r3 e.r4)

theorem hideOnEvent_fields (st : TIState) :
    (hideOnEvent st).isIndicatorVisible = false ∧
    (hideOnEvent st).isCharThinking = false ∧
    (hideOnEvent st).typingCharacters = [] ∧
    (hideOnEvent st).soundInterval = none ∧
    (hideOnEvent st).pauseTimeout = none ∧
    (hideOnEvent st).thinkingObserver = none := by
  unfold hideOnEvent hideTypingIndicator hideNodePhase
  split
  · exact ⟨rfl, rfl, rfl, rfl, rfl, rfl⟩
  · exact ⟨rfl, rfl, rfl, rfl, rfl, rfl⟩

theorem countKind_hideOnEvent {st : TIState} (h : WF st) {k : TimerKind}
    (hk : k = TimerKind.soundLoop ∨ k = TimerKind.pauseLoop ∨ k = TimerKind.thinkObs) :
    countKind k (hideOnEvent st) = 0 := by
  have hknhr : TimerKind.hideRemove ≠ k := by
    rcases hk with rfl | rfl | rfl <;> (intro hc; cases hc)
  have hwf2 : WF { st with typingCharacters := [], isIndicatorVisible := false } :=
    wf_of_parts h rfl rfl rfl rfl rfl rfl h.2.2.2
  have hcc : countKind k
      (clearTimers { st with typingCharacters := [], isIndicatorVisible := false }) = 0 :=
    countKind_clearTimers hwf2 hk
  unfold hideOnEvent hideTypingIndicator hideNodePhase
  split
  · exact hcc
  · rename_i node rest hnodes
    rw [countKind_addTimer _ hknhr, countKind_congr rfl]
    exact hcc

/-- Invoking the hide path twice in a row leaves every runtime observable
exactly as after the first call (the registry gains only a second anonymous
fade-out timeout, which is not extension runtime state). -/
theorem hideOnEvent_idem (st : TIState) :
    runtimeObs (hideOnEvent (hideOnEvent st)) = runtimeObs (hideOnEvent st) := by
  rcases st with ⟨pt, si, vis, ict, tc, tob, utt, fr, pend, nodes, ce, une, sfe⟩
  cases nodes with
  | nil => rfl
  | cons nd rest => rfl

theorem observerProcessAdded_outside {lastMsg : ChatMessage} {nd : Option RNode}
    (h : addedOutsideLast lastMsg nd = true) (a : Bool × List Bool) :
    observerProcessAdded lastMsg a nd = a := by
  cases nd with
  | none => rfl
  | some rd =>
    unfold addedOutsideLast at h
    unfold observerProcessAdded
    simp at h
    simp [h]

theorem foldl_processAdded_outside {lastMsg : ChatMessage} {added : List (Option RNode)}
    (h : ∀ nd ∈ added, addedOutsideLast lastMsg nd = true) :
    ∀ a, added.foldl (observerProcessAdded lastMsg) a = a := by
  induction added with
  | nil => intro a; rfl
  | cons nd tl ih =>
    intro a
    rw [List.foldl_cons, observerProcessAdded_outside (h nd (by simp))]
    exact ih (fun x hx => h x (by simp [hx])) a

theorem observerProcessMutation_outside {lastMsg : ChatMessage} {mu : ChatMutation}
    (h : mutOutsideLast lastMsg mu = true) (acc : Bool × List Bool) :
    observerProcessMutation lastMsg acc mu = acc := by
  cases mu with
  | childList added =>
    unfold mutOutsideLast at h
    rw [List.all_eq_true] at h
    exact foldl_processAdded_outside h acc
  | attrState t =>
    unfold mutOutsideLast at h
    unfold observerProcessMutation
    simp at h
    simp [h]

theorem foldl_processMutation_outside {lastMsg : ChatMessage} {muts : List ChatMutation}
    (h : ∀ mu ∈ muts, mutOutsideLast lastMsg mu = true) :
    ∀ acc, muts.foldl (observerProcessMutation lastMsg) acc = acc := by
  induction muts with
  | nil => intro acc; rfl
  | cons mu tl ih =>
    intro acc
    rw [List.foldl_cons, observerProcessMutation_outside (h mu (by simp))]
    exact ih (fun x hx => h x (by simp [hx])) acc

theorem observerBatch_attr {msgs : List ChatMessage} {lastMsg : ChatMessage}
    (t : RNode) (th : Bool) (hl : msgs.getLast? = some lastMsg)
    (hc : inLastMessage lastMsg t.elemId = true) :
    observerBatch true msgs th [ChatMutation.attrState t] =
      (if t.dataState = "thinking" && !th then (true, [true])
       else if t.dataState = "done" && th then (false, [false])
       else (th, [])) := by
  unfold observerBatch
  rw [hl]
  simp only [Bool.not_true, Bool.false_eq_true, if_false, List.foldl_cons, List.foldl_nil]
  simp only [observerProcessMutation]
  rw [hc]
  simp

/-! ## Claims -/

/-- C3: while the indicator is visible with thinking detection enabled, a
reasoning-block data-state transitioning thinking, done, thinking within one
visible cycle drives the rendered sub-state exactly typing, thinking, typing,
thinking - one re-render per transition, none missed, none duplicated (the
last message is looked up fresh for each batch, so the three batches may see
different message lists); and any batch whose insertions and attribute
changes all concern reasoning blocks not contained in (and not equal to) the
freshly recomputed current last message leaves the thinking state unchanged
and triggers no re-render. -/
theorem claim_C3 :
    (∀ (m1 m2 m3 : List ChatMessage) (l1 l2 l3 : ChatMessage) (t1 t2 t3 : RNode),
      m1.getLast? = some l1 → m2.getLast? = some l2 → m3.getLast? = some l3 →
      inLastMessage l1 t1.elemId = true → inLastMessage l2 t2.elemId = true →
      inLastMessage l3 t3.elemId = true →
      t1.dataState = "thinking" → t2.dataState = "done" → t3.dataState = "thinking" →
      observerBatch true m1 false [ChatMutation.attrState t1] = (true, [true]) ∧
      observerBatch true m2 true [ChatMutation.attrState t2] = (false, [false]) ∧
      observerBatch true m3 false [ChatMutation.attrState t3] = (true, [true])) ∧
    (∀ (m : List ChatMessage) (l : ChatMessage) (th : Bool) (muts : List ChatMutation),
      m.getLast? = some l →
      (∀ mu ∈ muts, mutOutsideLast l mu = true) →
      observerBatch true m th muts = (th, [])) := by
  constructor
  · intro m1 m2 m3 l1 l2 l3 t1 t2 t3 hl1 hl2 hl3 hc1 hc2 hc3 hs1 hs2 hs3
    refine ⟨?_, ?_, ?_⟩
    · rw [observerBatch_attr t1 false hl1 hc1]
      simp [hs1]
    · rw [observerBatch_attr t2 true hl2 hc2]
      simp [hs2]
    · rw [observerBatch_attr t3 false hl3 hc3]
      simp [hs3]
  · intro m l th muts hl h
    unfold observerBatch
    rw [hl]
    simp only [Bool.not_true, Bool.false_eq_true, if_false]
    exact foldl_processMutation_outside h (th, [])

/-- C3 witness: a thinking-done-thinking attribute run on the last message's
reasoning block renders thinking, typing, thinking; and an attribute change
on the reasoning block of an older message (two messages present, target
contained only in the first) leaves the state untouched. -/
theorem claim_C3_witness :
    (observerBatch true [⟨0, [10]⟩] false [ChatMutation.attrState ⟨10, "thinking"⟩] =
        (true, [true]) ∧
      observerBatch true [⟨0, [10]⟩] true [ChatMutation.attrState ⟨10, "done"⟩] =
        (false, [false]) ∧
      observerBatch true [⟨0, [10]⟩] false [ChatMutation.attrState ⟨10, "thinking"⟩] =
        (true, [true])) ∧
    observerBatch true [⟨0, [10]⟩, ⟨1, [11]⟩] true
      [ChatMutation.attrState ⟨10, "done"⟩] = (true, []) :=
  ⟨claim_C3.1 _ _ _ _ _ _ _ _ _ rfl rfl rfl (by decide) (by decide) (by decide)
      rfl rfl rfl,
   claim_C3.2 _ _ _ _ rfl (by decide)⟩

/-- C4 counterexample: the sound loop's period is drawn once at creation
(setInterval), not freshly per cycle.  With a random stream whose first two
draws are 0 and 1/2, the code's second inter-cue gap stays at 300ms while a
per-cycle fresh draw as the claim states (standard mode, [300,500]) would
give 400ms. -/
theorem claim_C4_counterexample :
    ¬ (soundGap (startSoundLoop (exRand 0)) 1 = specFreshSoundGap false exRand 1) := by
  norm_num [soundGap, soundTickTime, startSoundLoop, specFreshSoundGap, exRand]

/-- C4 (amended): every inter-cue gap of the sound loop equals the single
period 300 + r * 200 drawn at loop start, which for a draw in [0,1) lies in
[300,500) ms; the repository has no dynamic-rhythm option, and a cycle whose
visibility or sound check fails merely skips playing - it does not
unschedule the interval. -/
theorem claim_C4_amended (r : ℚ) (k : ℕ) :
    soundGap (startSoundLoop r) k = 300 + r * 200 ∧
    (0 ≤ r → r < 1 →
      300 ≤ soundGap (startSoundLoop r) k ∧ soundGap (startSoundLoop r) k < 500) := by
  have hg : soundGap (startSoundLoop r) k = 300 + r * 200 := by
    unfold soundGap soundTickTime startSoundLoop
    push_cast
    ring
  refine ⟨hg, fun h0 h1 => ?_⟩
  rw [hg]
  constructor <;> nlinarith

/-- C4 witness: with a draw of 1/2 the fixed period is 400ms, inside
[300,500). -/
theorem claim_C4_witness :
    soundGap (startSoundLoop (1/2)) 3 = 300 + (1/2 : ℚ) * 200 ∧
    300 ≤ soundGap (startSoundLoop (1/2)) 3 ∧ soundGap (startSoundLoop (1/2)) 3 < 500 :=
  ⟨(claim_C4_amended (1/2) 3).1,
   ((claim_C4_amended (1/2) 3).2 (by norm_num) (by norm_num)).1,
   ((claim_C4_amended (1/2) 3).2 (by norm_num) (by norm_num)).2⟩

/-- C5 (spec-modelled: stream-gated sound is absent from src/index.js): with
sound enabled, generation start either starts the pacing loop immediately or,
when the gate option is set, only marks pendingSoundOnStream; the first
stream token with the indicator visible and sound enabled clears the flag and
starts the loop; and once the flag is cleared a stream token is a no-op. -/
theorem claim_C5 :
    (∀ st : GatedSoundState, (onGenStartSound true false st).soundLoopLive = true ∧
      (onGenStartSound true false st).pendingSoundOnStream = st.pendingSoundOnStream) ∧
    (∀ st : GatedSoundState, (onGenStartSound true true st).pendingSoundOnStream = true ∧
      (onGenStartSound true true st).soundLoopLive = st.soundLoopLive) ∧
    (∀ st : GatedSoundState, st.pendingSoundOnStream = true → st.visible = true →
      (onStreamToken true st).pendingSoundOnStream = false ∧
      (onStreamToken true st).soundLoopLive = true) ∧
    (∀ (e : Bool) (st : GatedSoundState), st.pendingSoundOnStream = false →
      onStreamToken e st = st) := by
  refine ⟨?_, ?_, ?_, ?_⟩
  · intro st
    exact ⟨rfl, rfl⟩
  · intro st
    exact ⟨rfl, rfl⟩
  · intro st hp hv
    unfold onStreamToken
    rw [hp, hv]
    exact ⟨rfl, rfl⟩
  · intro e st hp
    unfold onStreamToken
    rw [hp]
    simp

/-- C5 witness: deferring, then releasing on the first stream token, then a
second stream token changing nothing. -/
theorem claim_C5_witness :
    (onGenStartSound true true ⟨false, false, true⟩).pendingSoundOnStream = true ∧
    (onStreamToken true (onGenStartSound true true ⟨false, false, true⟩)).soundLoopLive
      = true ∧
    onStreamToken true (onStreamToken true (onGenStartSound true true ⟨false, false, true⟩))
      = onStreamToken true (onGenStartSound true true ⟨false, false, true⟩) :=
  ⟨(claim_C5.2.1 ⟨false, false, true⟩).1,
   (claim_C5.2.2.1 (onGenStartSound true true ⟨false, false, true⟩) rfl rfl).2,
   claim_C5.2.2.2 true _ (claim_C5.2.2.1 (onGenStartSound true true ⟨false, false, true⟩)
      rfl rfl).1⟩

/-- C9 (spec-modelled: the user keystroke cue is absent from src/index.js):
with the master switch, the user indicator and sound enabled, a raw input
event plays exactly one cue, at the configured volume jittered by an
independent draw to between 70 and 100 percent, with the fixed user-side
sound theme. -/
theorem claim_C9 (volume r : ℚ) (h0 : 0 ≤ r) (h1 : r < 1) (hv : 0 ≤ volume) :
    userKeystrokeCue true true true volume r =
      some (volume * (7/10 + r * (3/10)), userSoundTheme) ∧
    (7/10) * volume ≤ volume * (7/10 + r * (3/10)) ∧
    volume * (7/10 + r * (3/10)) ≤ volume := by
  refine ⟨rfl, ?_, ?_⟩ <;> nlinarith

/-- C9 witness: volume 1 and draw 1/2 give one cue at volume 17/20, inside
the 70-100 percent band. -/
theorem claim_C9_witness :
    userKeystrokeCue true true true 1 (1/2) =
      some ((1 : ℚ) * (7/10 + (1/2 : ℚ) * (3/10)), userSoundTheme) ∧
    (7/10 : ℚ) * 1 ≤ (1 : ℚ) * (7/10 + (1/2 : ℚ) * (3/10)) ∧
    (1 : ℚ) * (7/10 + (1/2 : ℚ) * (3/10)) ≤ 1 :=
  claim_C9 1 (1/2) (by norm_num) (by norm_num) (by norm_num)

/-- C1: after a hide (the stop/end/chat-changed handler), the indicator is
not visible, thinking is reset, the typing-character set is empty, the three
handles are null, and no sound-loop, pause-loop or observer callback remains
registered (so none can fire and mutate state later); and hiding a second
time in a row - a total function, so it cannot throw - leaves every runtime
observable identical to after the first hide. -/
theorem claim_C1 (st : TIState) (h : WF st) :
    (hideOnEvent st).isIndicatorVisible = false ∧
    (hideOnEvent st).isCharThinking = false ∧
    (hideOnEvent st).typingCharacters = [] ∧
    (hideOnEvent st).soundInterval = none ∧
    (hideOnEvent st).pauseTimeout = none ∧
    (hideOnEvent st).thinkingObserver = none ∧
    countKind TimerKind.soundLoop (hideOnEvent st) = 0 ∧
    countKind TimerKind.pauseLoop (hideOnEvent st) = 0 ∧
    countKind TimerKind.thinkObs (hideOnEvent st) = 0 ∧
    runtimeObs (hideOnEvent (hideOnEvent st)) = runtimeObs (hideOnEvent st) := by
  obtain ⟨h1, h2, h3, h4, h5, h6⟩ := hideOnEvent_fields st
  exact ⟨h1, h2, h3, h4, h5, h6,
    countKind_hideOnEvent h (Or.inl rfl),
    countKind_hideOnEvent h (Or.inr (Or.inl rfl)),
    countKind_hideOnEvent h (Or.inr (Or.inr rfl)),
    hideOnEvent_idem st⟩

/-- Settings with sound and pause simulation on, for concrete runs. -/
def soundSettings : Settings :=
  { defaultSettings with soundEnabled := true, simulatePauses := true }

/-- A state with the indicator shown and all three loops live. -/
def demoShownState : TIState :=
  showTypingIndicator soundSettings "u" "c" "normal" none false 0 0 0 0 initState

/-- C1 witness: hiding the freshly shown indicator (sound interval, pause
loop and observer live) tears everything down, and hiding again changes no
runtime observable. -/
theorem claim_C1_witness :
    (hideOnEvent demoShownState).isIndicatorVisible = false ∧
    (hideOnEvent demoShownState).isCharThinking = false ∧
    (hideOnEvent demoShownState).typingCharacters = [] ∧
    (hideOnEvent demoShownState).soundInterval = none ∧
    (hideOnEvent demoShownState).pauseTimeout = none ∧
    (hideOnEvent demoShownState).thinkingObserver = none ∧
    countKind TimerKind.soundLoop (hideOnEvent demoShownState) = 0 ∧
    countKind TimerKind.pauseLoop (hideOnEvent demoShownState) = 0 ∧
    countKind TimerKind.thinkObs (hideOnEvent demoShownState) = 0 ∧
    runtimeObs (hideOnEvent (hideOnEvent demoShownState)) =
      runtimeObs (hideOnEvent demoShownState) :=
  claim_C1 demoShownState
    (wf_showTypingIndicator wf_initState soundSettings "u" "c" "normal" none false 0 0 0 0)

/-- C2: along any run of consecutive generation-start events with no
intervening hide, starting from a well-formed state, at most one indicator
node exists and at most one sound interval, one pause timeout and one
thinking observer are live (each start tears all three down before possibly
creating new ones; the re-entry path creates none). -/
theorem claim_C2 (s : Settings) (n1 n2 : String) (evs : List GenStart)
    (st : TIState) (h : WF st) :
    (runStarts s n1 n2 evs st).charNodes.length ≤ 1 ∧
    countKind TimerKind.soundLoop (runStarts s n1 n2 evs st) ≤ 1 ∧
    countKind TimerKind.pauseLoop (runStarts s n1 n2 evs st) ≤ 1 ∧
    countKind TimerKind.thinkObs (runStarts s n1 n2 evs st) ≤ 1 := by
  have hwf := wf_runStarts s n1 n2 evs st h
  exact ⟨hwf.2.2.2,
    countKind_le_one hwf (by decide) (by decide),
    countKind_le_one hwf (by decide) (by decide),
    countKind_le_one hwf (by decide) (by decide)⟩

/-- Two consecutive start events, the second being pure re-entry. -/
def demoStarts : List GenStart :=
  [⟨"normal", none, false, 0, 0, 0, 0⟩, ⟨"normal", none, false, 1/2, 1/2, 1/2, 1/2⟩]

/-- C2 witness: two consecutive starts with sound and pause simulation on
leave one node and at most one live loop of each kind. -/
theorem claim_C2_witness :
    (runStarts soundSettings "u" "c" demoStarts initState).charNodes.length ≤ 1 ∧
    countKind TimerKind.soundLoop (runStarts soundSettings "u" "c" demoStarts initState) ≤ 1 ∧
    countKind TimerKind.pauseLoop (runStarts soundSettings "u" "c" demoStarts initState) ≤ 1 ∧
    countKind TimerKind.thinkObs (runStarts soundSettings "u" "c" demoStarts initState) ≤ 1 :=
  claim_C2 soundSettings "u" "c" demoStarts initState wf_initState

/-- C6: a pause-simulation tick with the node gone or the indicator hidden
stops without rescheduling; otherwise the paused class is applied exactly
when the pause coin (a uniform [0,1) draw) falls below the configured pause
chance, in which case a one-shot removal timeout of 300 + rD * 600 ms (in
[300,900)) is registered and firing it removes the class again; in either
case the next tick is scheduled after 800 + rN * 1500 ms (in [800,2300)) and
its id stored in pauseTimeout. -/
theorem claim_C6 (s : Settings) (rP rD rN : ℚ) (st : TIState)
    (hD0 : 0 ≤ rD) (hD1 : rD < 1) (hN0 : 0 ≤ rN) (hN1 : rN < 1) :
    ((st.charNodes = [] ∨ st.isIndicatorVisible = false) →
      schedulePause s rP rD rN st = st) ∧
    (∀ node rest, st.charNodes = node :: rest → st.isIndicatorVisible = true →
      (rP < s.pauseChance →
        schedulePause s rP rD rN st =
          { addTimer TimerKind.pauseLoop (800 + rN * 1500)
              (addTimer TimerKind.pauseEnd (300 + rD * 600)
                { st with charNodes := { node with pausedCls := true } :: rest }) with
            pauseTimeout := some (st.fresh + 1) } ∧
        (firePauseEnd (schedulePause s rP rD rN st)).charNodes =
          { node with pausedCls := false } :: rest) ∧
      (¬ rP < s.pauseChance →
        schedulePause s rP rD rN st =
          { addTimer TimerKind.pauseLoop (800 + rN * 1500) st with
            pauseTimeout := some st.fresh }) ∧
      300 ≤ 300 + rD * 600 ∧ 300 + rD * 600 < 900 ∧
      800 ≤ 800 + rN * 1500 ∧ 800 + rN * 1500 < 2300) := by
  constructor
  · intro hor
    unfold schedulePause
    rcases hor with hnil | hvis
    · rw [hnil]
    · cases hcn : st.charNodes with
      | nil => rfl
      | cons nd rest =>
        rw [hvis]
        simp
  · intro node rest hcn hvis
    unfold schedulePause
    rw [hcn, hvis]
    simp only [Bool.not_true, Bool.false_eq_true, if_false]
    refine ⟨fun hcoin => ?_, fun hcoin => ?_, by nlinarith, by nlinarith, by nlinarith,
      by nlinarith⟩
    · rw [if_pos hcoin]
      exact ⟨rfl, rfl⟩
    · rw [if_neg hcoin]

/-- A plain indicator node for concrete pause-loop runs. -/
def demoNode : CharNode :=
  { content := { isUser := false, thinkingVariant := false, displayName := "c" }
    posClass := "typing-position-inline"
    styleClass := "typing-style-discord"
    themeClass := "typing-theme-smooth"
    visibleCls := true
    hidingCls := false
    pausedCls := false }

/-- A visible-indicator state holding demoNode. -/
def demoNodeState : TIState :=
  { initState with charNodes := [demoNode], isIndicatorVisible := true }

/-- C6 witness: with pause chance 1/2 and coin 1/4 the pause applies, its
one-shot removal clears the class, and the drawn durations sit in their
ranges. -/
theorem claim_C6_witness :
    (firePauseEnd (schedulePause defaultSettings (1/4) (1/2) (1/2) demoNodeState)).charNodes =
      { demoNode with pausedCls := false } :: [] ∧
    300 ≤ 300 + (1/2 : ℚ) * 600 ∧ 300 + (1/2 : ℚ) * 600 < 900 ∧
    800 ≤ 800 + (1/2 : ℚ) * 1500 ∧ 800 + (1/2 : ℚ) * 1500 < 2300 :=
  have hb := (claim_C6 defaultSettings (1/4) (1/2) (1/2) demoNodeState (by norm_num)
    (by norm_num) (by norm_num) (by norm_num)).2 demoNode [] rfl rfl
  ⟨(hb.1 (by norm_num [defaultSettings])).2, hb.2.2.1, hb.2.2.2.1, hb.2.2.2.2.1,
    hb.2.2.2.2.2⟩

/-- C7: a generation-start whose kind is on the do-nothing list (quiet,
impersonate) or whose dryRun flag is set is a complete no-op: the state -
nodes, timers, observer, every runtime field - is returned unchanged. -/
theorem claim_C7 (s : Settings) (n1 n2 ty : String) (cn : Option String)
    (dryRun : Bool) (r1 r2 r3 r4 : ℚ) (st : TIState)
    (h : ty ∈ noIndicatorTypes ∨ dryRun = true) :
    showTypingIndicator s n1 n2 ty cn dryRun r1 r2 r3 r4 st = st := by
  unfold showTypingIndicator
  have hg : showGuard ty dryRun = true := by
    unfold showGuard
    rcases h with hm | hd
    · have hc : noIndicatorTypes.contains ty = true := List.elem_eq_true_of_mem hm
      rw [hc]
      rfl
    · rw [hd]
      simp
  rw [if_pos hg]

/-- C7 witness: kind quiet, and separately dryRun, leave the fresh state
untouched. -/
theorem claim_C7_witness :
    showTypingIndicator soundSettings "u" "c" "quiet" none false 0 0 0 0 initState =
      initState ∧
    showTypingIndicator soundSettings "u" "c" "normal" none true 0 0 0 0 initState =
      initState :=
  ⟨claim_C7 soundSettings "u" "c" "quiet" none false 0 0 0 0 initState
      (Or.inl (by simp [noIndicatorTypes])),
   claim_C7 soundSettings "u" "c" "normal" none true 0 0 0 0 initState (Or.inr rfl)⟩

/-- C8: the message-sent handler (hideUserTypingIndicator) nulls the idle
timeout handle, leaves no live idle timeout whatever delay remained on it,
and removes the user indicator node in the same synchronous step - not after
the remaining timeout. -/
theorem claim_C8 (st : TIState) (h : WF st) :
    (hideUserTypingIndicator st).userTypingTimeout = none ∧
    (hideUserTypingIndicator st).userNodeExists = false ∧
    countKind TimerKind.userIdle (hideUserTypingIndicator st) = 0 := by
  refine ⟨rfl, rfl, ?_⟩
  rw [countKind_eq_zero_iff]
  intro p hp hk
  simp only [hideUserTypingIndicator] at hp
  have hpm : p ∈ st.pending := mem_of_mem_clearById hp
  have hhd := h.1 p hpm (by rw [hk]; intro hc; cases hc) (by rw [hk]; intro hc; cases hc)
  rw [hk] at hhd
  have hx : st.userTypingTimeout = some p.id := hhd
  rw [hx] at hp
  exact ne_of_mem_clearById hp rfl

/-- Settings with the user typing indicator enabled. -/
def userSettings : Settings :=
  { defaultSettings with userTypingEnabled := true }

/-- The state right after one keystroke: node inserted, 600ms idle timeout
armed. -/
def demoUserState : TIState :=
  showUserTypingIndicator userSettings initState

/-- One keystroke from the load state, evaluated: node inserted before the
send form and a single 600ms idle timeout registered with id 0. -/
theorem demoUserState_eq :
    demoUserState =
      { pauseTimeout := none, soundInterval := none, isIndicatorVisible := false,
        isCharThinking := false, typingCharacters := [], thinkingObserver := none,
        userTypingTimeout := some 0, fresh := 1,
        pending := [⟨0, TimerKind.userIdle, 600⟩], charNodes := [],
        chatExists := true, userNodeExists := true, sendFormExists := true } := by
  show showUserTypingIndicator userSettings initState = _
  unfold showUserTypingIndicator
  norm_num [userSettings, defaultSettings, initState, addTimer, clearById]

/-- C8 witness: after a keystroke the node shows and one 600ms idle timeout
is live; message-sent removes the node and the timeout in the same step,
regardless of the 600ms still remaining on it. -/
theorem claim_C8_witness :
    demoUserState.userNodeExists = true ∧
    demoUserState.pending = [⟨0, TimerKind.userIdle, 600⟩] ∧
    (hideUserTypingIndicator demoUserState).userTypingTimeout = none ∧
    (hideUserTypingIndicator demoUserState).userNodeExists = false ∧
    countKind TimerKind.userIdle (hideUserTypingIndicator demoUserState) = 0 := by
  have hwf : WF demoUserState := by
    rw [demoUserState_eq]
    refine ⟨?_, ?_, ?_, ?_⟩
    · intro p hp h1 h2
      simp at hp
      rw [hp]
      rfl
    · simp
    · intro p hp
      simp at hp
      rw [hp]
      norm_num
    · simp
  have h8 := claim_C8 demoUserState hwf
  refine ⟨?_, ?_, h8.1, h8.2.1, h8.2.2⟩
  · rw [demoUserState_eq]
  · rw [demoUserState_eq]

/-- C10: a generation-start processed while the indicator node already exists
(and no no-op precondition applies) clears the sound interval, pause timeout
and observer, resets thinking, replaces the node's content and class list in
place, and returns: afterwards no sound, pause or observer callback is live,
and the visibility flag still holds its prior value. -/
theorem claim_C10 (s : Settings) (n1 n2 ty : String) (cn : Option String)
    (r1 r2 r3 r4 : ℚ) (st : TIState) (node : CharNode) (rest : List CharNode)
    (h : WF st) (hty : ty ∉ noIndicatorTypes) (hen : s.enabled = true)
    (hn2 : ¬ n2 = "") (hnodes : st.charNodes = node :: rest) :
    (showTypingIndicator s n1 n2 ty cn false r1 r2 r3 r4 st).soundInterval = none ∧
    (showTypingIndicator s n1 n2 ty cn false r1 r2 r3 r4 st).pauseTimeout = none ∧
    (showTypingIndicator s n1 n2 ty cn false r1 r2 r3 r4 st).thinkingObserver = none ∧
    countKind TimerKind.soundLoop (showTypingIndicator s n1 n2 ty cn false r1 r2 r3 r4 st) = 0 ∧
    countKind TimerKind.pauseLoop (showTypingIndicator s n1 n2 ty cn false r1 r2 r3 r4 st) = 0 ∧
    countKind TimerKind.thinkObs (showTypingIndicator s n1 n2 ty cn false r1 r2 r3 r4 st) = 0 ∧
    (showTypingIndicator s n1 n2 ty cn false r1 r2 r3 r4 st).isCharThinking = false ∧
    (showTypingIndicator s n1 n2 ty cn false r1 r2 r3 r4 st).isIndicatorVisible =
      st.isIndicatorVisible ∧
    (showTypingIndicator s n1 n2 ty cn false r1 r2 r3 r4 st).charNodes =
      (showUpdateExisting s
        (generateIndicatorHTML s n1 n2
          (showTypingIndicator s n1 n2 ty cn false r1 r2 r3 r4 st).typingCharacters
          false false)
        node) :: rest := by
  have hg : showGuard ty false = false := by
    unfold showGuard
    cases hcon : noIndicatorTypes.contains ty with
    | true => exact absurd (List.mem_of_elem_eq_true hcon) hty
    | false => rfl
  have hpre : showPre s n2 = false := by
    unfold showPre
    rw [hen]
    simp [hn2]
  unfold showTypingIndicator
  rw [hg, hpre]
  simp only [Bool.false_eq_true, if_false]
  set stg := trackGroupCharacter s cn { clearTimers st with isCharThinking := false } with hstg
  have hsgnodes : stg.charNodes = node :: rest := hnodes
  unfold showAfterGuards
  rw [hsgnodes]
  refine ⟨rfl, rfl, rfl, ?_, ?_, ?_, rfl, rfl, rfl⟩
  · calc countKind TimerKind.soundLoop _ = countKind TimerKind.soundLoop (clearTimers st) :=
        countKind_congr rfl _
      _ = 0 := countKind_clearTimers h (Or.inl rfl)
  · calc countKind TimerKind.pauseLoop _ = countKind TimerKind.pauseLoop (clearTimers st) :=
        countKind_congr rfl _
      _ = 0 := countKind_clearTimers h (Or.inr (Or.inl rfl))
  · calc countKind TimerKind.thinkObs _ = countKind TimerKind.thinkObs (clearTimers st) :=
        countKind_congr rfl _
      _ = 0 := countKind_clearTimers h (Or.inr (Or.inr rfl))

/-- C10 witness: re-entry on a visible indicator with an existing node: no
loop is live afterwards and the visibility flag keeps its prior true value. -/
theorem claim_C10_witness :
    (showTypingIndicator soundSettings "u" "c" "normal" none false 0 0 0 0
        demoNodeState).soundInterval = none ∧
    (showTypingIndicator soundSettings "u" "c" "normal" none false 0 0 0 0
        demoNodeState).pauseTimeout = none ∧
    (showTypingIndicator soundSettings "u" "c" "normal" none false 0 0 0 0
        demoNodeState).thinkingObserver = none ∧
    countKind TimerKind.soundLoop (showTypingIndicator soundSettings "u" "c" "normal"
        none false 0 0 0 0 demoNodeState) = 0 ∧
    countKind TimerKind.pauseLoop (showTypingIndicator soundSettings "u" "c" "normal"
        none false 0 0 0 0 demoNodeState) = 0 ∧
    countKind TimerKind.thinkObs (showTypingIndicator soundSettings "u" "c" "normal"
        none false 0 0 0 0 demoNodeState) = 0 ∧
    (showTypingIndicator soundSettings "u" "c" "normal" none false 0 0 0 0
        demoNodeState).isCharThinking = false ∧
    (showTypingIndicator soundSettings "u" "c" "normal" none false 0 0 0 0
        demoNodeState).isIndicatorVisible = demoNodeState.isIndicatorVisible ∧
    (showTypingIndicator soundSettings "u" "c" "normal" none false 0 0 0 0
        demoNodeState).charNodes =
      (showUpdateExisting soundSettings
        (generateIndicatorHTML soundSettings "u" "c"
          (showTypingIndicator soundSettings "u" "c" "normal" none false 0 0 0 0
            demoNodeState).typingCharacters false false)
        demoNode) :: [] :=
  claim_C10 soundSettings "u" "c" "normal" none 0 0 0 0 demoNodeState demoNode []
    (by
      refine ⟨?_, ?_, ?_, ?_⟩
      · intro p hp h1 h2
        simp [demoNodeState, initState] at hp
      · simp [demoNodeState, initState]
      · intro p hp
        simp [demoNodeState, initState] at hp
      · simp [demoNodeState, initState])
    (by simp [noIndicatorTypes]) rfl (by simp) rfl

end TypingIndicator
